import Mathlib

/-!
Verification of the browsertool action base
(src/python/composio/tools/local/browsertool/actions/base_action.py).

The Python code is shallowly embedded: the mutable BrowserManager handle is
modelled as an explicit record of query results that the domain operation may
replace (mutation becomes state passing), exceptions become Except, the
random suffix drawn by random.choices becomes a stream of naturals, and every
call made on the session handle is additionally recorded in a ghost event
trace so that ordering facts (screenshot before the domain operation, after
the enrichment) are provable.
-/

/-- Exceptions: ComposioSDKError is the class raised by the wrapper itself
(lines 96 and 102); `other` stands for any exception raised by the session
handle or the concrete action. -/
inductive Exn where
  | composioSDKError (msg : String)
  | other (msg : String)
  deriving DecidableEq

/-- Python str(e): the message carried by the exception. -/
def exnStr : Exn → String
  | .composioSDKError m => m
  | .other m => m

/-- A JavaScript-object-like dictionary as returned by get_page_viewport and
execute_script: string keys to optionally-null integers, in insertion order. -/
abbrev JDict := List (String × Option Int)

/-- The external BrowserManager session handle (an opaque collaborator): the
results of each capability the wrapper calls.  take_screenshot may depend on
the path it is given. -/
structure Manager where
  getCurrentUrlR : Except Exn String
  getPageViewportR : Except Exn (Option JDict)
  executeScriptR : String → Except Exn (Option JDict)
  takeScreenshotR : String → Except Exn Unit

/-- workspace.browser_managers: a Python dict in insertion order, first
inserted first, keys distinct in practice but not needed for the model. -/
structure Workspace where
  browser_managers : List (String × Manager)

/-- The metadata dict passed to execute; only the "workspace" key is read
(line 94), and a missing key yields None. -/
structure Metadata where
  workspace : Option Workspace

/-- BaseBrowserRequest (lines 24-33): optional manager id and screenshot flag. -/
structure BaseBrowserRequest where
  browser_manager_id : Option String := none
  capture_screenshot : Bool := false
  deriving DecidableEq

/-- BaseBrowserResponse (lines 51-79): all fields optional, default None. -/
structure BaseBrowserResponse where
  error : Option String := none
  current_url : Option String := none
  viewport : Option JDict := none
  scroll_position : Option JDict := none
  page_dimensions : Option JDict := none
  before_screenshot : Option String := none
  after_screenshot : Option String := none
  deriving DecidableEq

/-- The concrete action's execute_on_browser_manager (line 85-89): it may
read and mutate the session (hence returns a new Manager) or raise; a raise
also leaves the session in some state, carried on the error. -/
abbrev DomainOp := Manager → Except (Exn × Manager) (BaseBrowserResponse × Manager)

/-- Ghost trace of the calls the wrapper makes on the session handle. -/
inductive Event where
  | screenshot (pfx : String) (path : String)
  | domainOp
  | getUrl
  | getViewport
  | script (code : String)
  deriving DecidableEq

/-- The script of lines 124-131 querying the scroll offset. -/
def scrollPositionScript : String :=
  "() => (\x7b x: window.pageXOffset, y: window.pageYOffset \x7d)"

/-- The script of lines 139-160 querying the maximal page dimensions. -/
def pageDimensionsScript : String :=
  "() => (\x7b width: Math.max(document.body.scrollWidth, document.documentElement.scrollWidth, document.body.offsetWidth, document.documentElement.offsetWidth, document.body.clientWidth, document.documentElement.clientWidth), height: Math.max(document.body.scrollHeight, document.documentElement.scrollHeight, document.body.offsetHeight, document.documentElement.offsetHeight, document.body.clientHeight, document.documentElement.clientHeight) \x7d)"

/-- Python v or None on an optional int (lines 120, 133, 162): None and the
falsy 0 both become None, every other integer is kept. -/
def truthyOrNone : Option Int → Option Int
  | none => none
  | some n => if n = 0 then none else some n

/-- The dict comprehension of lines 120, 133, 162 applied to a non-empty dict. -/
def normalizeEntries (d : JDict) : JDict :=
  d.map fun kv => (kv.1, truthyOrNone kv.2)

/-- The whole conditional expression of lines 119-121 (and 132-136, 161-165):
a falsy dict, that is a null or an empty one, yields None; otherwise each
value goes through v or None. -/
def dictOrNone : Option JDict → Option JDict
  | none => none
  | some d => if d = [] then none else some (normalizeEntries d)

/-- string.ascii_lowercase. -/
def asciiLowercase : List Char := "abcdefghijklmnopqrstuvwxyz".data

/-- One draw of random.choices(string.ascii_lowercase, ...): an arbitrary
natural from the random stream indexes the alphabet. -/
def lowercaseAt (n : Nat) : Char := asciiLowercase.getD (n % 26) 'a'

/-- random.choices(string.ascii_lowercase, k=6) at line 193, the random
source modelled as a stream rng consumed from position start. -/
def randomString (rng : Nat → Nat) (start : Nat) : String :=
  String.mk ((List.range 6).map fun i => lowercaseAt (rng (start + i)))

/-- Lines 190-194: str(Path.home() / ".browser_media" / f-string); the mkdir
side effect has no observable result and is omitted. -/
def screenshotPath (home pfx : String) (rng : Nat → Nat) (start : Nat) : String :=
  home ++ "/.browser_media/" ++ pfx ++ "_screenshot_" ++ randomString rng start ++ ".png"

/-- The enrichment assignments of lines 115-171 applied to the domain
operation's response: current_url, the three normalized telemetry dicts and
the two screenshot paths are overwritten, every other field is kept. -/
def finishResp (r : BaseBrowserResponse) (url : String) (vp sc pd : Option JDict)
    (before after : Option String) : BaseBrowserResponse :=
  { r with
    current_url := some url
    viewport := dictOrNone vp
    scroll_position := dictOrNone sc
    page_dimensions := dictOrNone pd
    before_screenshot := before
    after_screenshot := after }

/-- Lines 112-171 after the optional before-screenshot: dispatch to the
concrete action, then enrich with the four session queries, then optionally
take the after screenshot.  An error carries the session state and the trace
at the moment of the raise. -/
def dispatchAndEnrich (dom : DomainOp) (req : BaseBrowserRequest) (bm : Manager)
    (rng : Nat → Nat) (home : String) (before : Option String) (tr0 : List Event) :
    Except (Exn × Manager × List Event) (BaseBrowserResponse × List Event) :=
  match dom bm with
  | .error (e, bmE) => .error (e, bmE, tr0 ++ [Event.domainOp])
  | .ok (r, bm') =>
    match bm'.getCurrentUrlR with
    | .error e => .error (e, bm', tr0 ++ [Event.domainOp, Event.getUrl])
    | .ok url =>
      match bm'.getPageViewportR with
      | .error e => .error (e, bm', tr0 ++ [Event.domainOp, Event.getUrl, Event.getViewport])
      | .ok vp =>
        match bm'.executeScriptR scrollPositionScript with
        | .error e => .error (e, bm', tr0 ++ [Event.domainOp, Event.getUrl, Event.getViewport,
            Event.script scrollPositionScript])
        | .ok sc =>
          match bm'.executeScriptR pageDimensionsScript with
          | .error e => .error (e, bm', tr0 ++ [Event.domainOp, Event.getUrl, Event.getViewport,
              Event.script scrollPositionScript, Event.script pageDimensionsScript])
          | .ok pd =>
            if req.capture_screenshot then
              match bm'.takeScreenshotR (screenshotPath home "after" rng 6) with
              | .error e => .error (e, bm', tr0 ++ [Event.domainOp, Event.getUrl,
                  Event.getViewport, Event.script scrollPositionScript,
                  Event.script pageDimensionsScript,
                  Event.screenshot "after" (screenshotPath home "after" rng 6)])
              | .ok _ => .ok (finishResp r url vp sc pd before
                  (some (screenshotPath home "after" rng 6)),
                  tr0 ++ [Event.domainOp, Event.getUrl, Event.getViewport,
                    Event.script scrollPositionScript, Event.script pageDimensionsScript,
                    Event.screenshot "after" (screenshotPath home "after" rng 6)])
            else
              .ok (finishResp r url vp sc pd before none,
                tr0 ++ [Event.domainOp, Event.getUrl, Event.getViewport,
                  Event.script scrollPositionScript, Event.script pageDimensionsScript])

/-- The whole try block, lines 105-173: the optional before-screenshot (the
first six values of the random stream) followed by dispatch and enrichment
(the after-screenshot uses the next six values). -/
def tryBody (dom : DomainOp) (req : BaseBrowserRequest) (bm : Manager)
    (rng : Nat → Nat) (home : String) :
    Except (Exn × Manager × List Event) (BaseBrowserResponse × List Event) :=
  if req.capture_screenshot then
    match bm.takeScreenshotR (screenshotPath home "before" rng 0) with
    | .error e => .error (e, bm, [Event.screenshot "before" (screenshotPath home "before" rng 0)])
    | .ok _ => dispatchAndEnrich dom req bm rng home
        (some (screenshotPath home "before" rng 0))
        [Event.screenshot "before" (screenshotPath home "before" rng 0)]
  else
    dispatchAndEnrich dom req bm rng home none []

/-- The error string of lines 175-177. -/
def errorMessage (e : Exn) : String :=
  "An error occurred while executing the browser action: " ++ exnStr e

/-- The except clause, lines 174-187: build a fresh response with the error
string and a re-queried current URL; if that query itself raises, the new
exception propagates. -/
def exceptHandler (e : Exn) (bm : Manager) (tr : List Event) :
    Except Exn BaseBrowserResponse × List Event :=
  match bm.getCurrentUrlR with
  | .error e2 => (.error e2, tr ++ [Event.getUrl])
  | .ok url =>
    (.ok {
      error := some (errorMessage e)
      current_url := some url
      viewport := none
      scroll_position := none
      page_dimensions := none
      before_screenshot := none
      after_screenshot := none }, tr ++ [Event.getUrl])

/-- Lines 105-187: the try/except around the body, given an already resolved
session handle. -/
def executeTry (dom : DomainOp) (req : BaseBrowserRequest) (bm : Manager)
    (rng : Nat → Nat) (home : String) : Except Exn BaseBrowserResponse × List Event :=
  match tryBody dom req bm rng home with
  | .ok (resp, tr) => (.ok resp, tr)
  | .error (e, bmE, tr) => exceptHandler e bmE tr

/-- browser_managers.get(request_data.browser_manager_id) at line 99: a None
key is never present, a string key is looked up in insertion order. -/
def lookupBrowserManager (bms : List (String × Manager)) : Option String → Option Manager
  | none => none
  | some key => List.lookup key bms

/-- Lines 98-103: select the requested manager; when absent, raise if the
registry is empty, otherwise fall back to next(iter(values())), the first
inserted entry of the dict. -/
def resolveBrowserManager (bms : List (String × Manager)) (id : Option String) :
    Except Exn Manager :=
  match lookupBrowserManager bms id with
  | some bm => .ok bm
  | none =>
    match bms with
    | [] => .error (.composioSDKError "No browser managers available")
    | (_, bm) :: _ => .ok bm

/-- BaseBrowserAction.execute, lines 91-187. -/
def execute (dom : DomainOp) (req : BaseBrowserRequest) (md : Metadata)
    (rng : Nat → Nat) (home : String) : Except Exn BaseBrowserResponse × List Event :=
  match md.workspace with
  | none => (.error (.composioSDKError "Workspace not found in authorisation data"), [])
  | some ws =>
    match resolveBrowserManager ws.browser_managers req.browser_manager_id with
    | .error e => (.error e, [])
    | .ok bm => executeTry dom req bm rng home

/-! Equation lemmas for the branches of execute. -/

theorem execute_workspace_none (dom : DomainOp) (req : BaseBrowserRequest) (md : Metadata)
    (rng : Nat → Nat) (home : String) (h : md.workspace = none) :
    execute dom req md rng home =
      (.error (.composioSDKError "Workspace not found in authorisation data"), []) := by
  simp [execute, h]

theorem execute_resolve_error (dom : DomainOp) (req : BaseBrowserRequest) (md : Metadata)
    (ws : Workspace) (rng : Nat → Nat) (home : String) (e : Exn)
    (hws : md.workspace = some ws)
    (hres : resolveBrowserManager ws.browser_managers req.browser_manager_id = .error e) :
    execute dom req md rng home = (.error e, []) := by
  simp [execute, hws, hres]

theorem execute_resolved (dom : DomainOp) (req : BaseBrowserRequest) (md : Metadata)
    (ws : Workspace) (bm : Manager) (rng : Nat → Nat) (home : String)
    (hws : md.workspace = some ws)
    (hres : resolveBrowserManager ws.browser_managers req.browser_manager_id = .ok bm) :
    execute dom req md rng home = executeTry dom req bm rng home := by
  simp [execute, hws, hres]

theorem executeTry_ok (dom : DomainOp) (req : BaseBrowserRequest) (bm : Manager)
    (rng : Nat → Nat) (home : String) (resp : BaseBrowserResponse) (tr : List Event)
    (hb : tryBody dom req bm rng home = .ok (resp, tr)) :
    executeTry dom req bm rng home = (.ok resp, tr) := by
  simp [executeTry, hb]

theorem executeTry_error (dom : DomainOp) (req : BaseBrowserRequest) (bm : Manager)
    (rng : Nat → Nat) (home : String) (e : Exn) (bmE : Manager) (tr : List Event)
    (hb : tryBody dom req bm rng home = .error (e, bmE, tr)) :
    executeTry dom req bm rng home = exceptHandler e bmE tr := by
  simp [executeTry, hb]

theorem exceptHandler_url_ok (e : Exn) (bm : Manager) (tr : List Event) (url : String)
    (hu : bm.getCurrentUrlR = .ok url) :
    exceptHandler e bm tr =
      (.ok {
        error := some (errorMessage e)
        current_url := some url
        viewport := none
        scroll_position := none
        page_dimensions := none
        before_screenshot := none
        after_screenshot := none }, tr ++ [Event.getUrl]) := by
  simp [exceptHandler, hu]

theorem exceptHandler_url_error (e : Exn) (bm : Manager) (tr : List Event) (e2 : Exn)
    (hu : bm.getCurrentUrlR = .error e2) :
    exceptHandler e bm tr = (.error e2, tr ++ [Event.getUrl]) := by
  simp [exceptHandler, hu]

/-! Concrete managers, requests and environments for counterexamples and
witnesses. -/

def mgrA : Manager where
  getCurrentUrlR := .ok "http://a.example"
  getPageViewportR := .ok (some [("width", some 800), ("height", some 600)])
  executeScriptR := fun _ => .ok (some [("x", some 1), ("y", some 2)])
  takeScreenshotR := fun _ => .ok ()

def mgrB : Manager where
  getCurrentUrlR := .ok "http://b.example"
  getPageViewportR := .ok (some [("width", some 1024), ("height", some 768)])
  executeScriptR := fun _ => .ok (some [("x", some 3), ("y", some 4)])
  takeScreenshotR := fun _ => .ok ()

/-- A session handle whose current-URL query itself raises. -/
def mgrDead : Manager where
  getCurrentUrlR := .error (.other "dead")
  getPageViewportR := .ok (some [("width", some 800), ("height", some 600)])
  executeScriptR := fun _ => .ok (some [("x", some 1), ("y", some 2)])
  takeScreenshotR := fun _ => .ok ()

def demoDom : DomainOp := fun m => .ok ({}, m)

/-- A concrete action whose domain operation raises. -/
def failDom : DomainOp := fun m => .error (.other "boom", m)

def demoReq : BaseBrowserRequest := {}

def reqZ : BaseBrowserRequest := { browser_manager_id := some "zzz" }

def demoRng : Nat → Nat := fun n => n

def demoMd : Metadata := ⟨some ⟨[("m", mgrA)]⟩⟩

def mdDead : Metadata := ⟨some ⟨[("m", mgrDead)]⟩⟩

def mdNone : Metadata := ⟨none⟩

def mdEmpty : Metadata := ⟨some ⟨[]⟩⟩

/-- C2: the claim says that with the session identifier omitted the most
recently created (last inserted) manager is selected.  The code instead
takes next(iter(browser_managers.values())), the FIRST inserted entry of the
insertion-ordered dict, contradicting the request field's own docstring
(lines 26-28).  With exactly one session that session is selected.  This
theorem evaluates the code: first part is the general first-entry selection,
the remaining parts evaluate the failing input of two managers inserted as
"first" then "second". -/
theorem c2_first_session_selected :
    (∀ (k : String) (m : Manager) (rest : List (String × Manager)),
      resolveBrowserManager ((k, m) :: rest) none = Except.ok m) ∧
    resolveBrowserManager [("first", mgrA), ("second", mgrB)] none = Except.ok mgrA ∧
    resolveBrowserManager [("first", mgrA), ("second", mgrB)] none ≠ Except.ok mgrB := by
  refine ⟨fun k m rest => rfl, rfl, fun h => ?_⟩
  have hA : resolveBrowserManager [("first", mgrA), ("second", mgrB)] none =
      Except.ok mgrA := rfl
  rw [hA] at h
  injection h with h2
  have h3 := congrArg Manager.getCurrentUrlR h2
  simp [mgrA, mgrB] at h3

/-- C6: a missing workspace in the metadata, and an empty registry with no
matching identifier, make execute raise a ComposioSDKError (the spec's
ConfigurationError resp. NoSessionAvailable); the exception is returned as a
raise, never converted into an error response. -/
theorem c6_fatal_errors_propagate (dom : DomainOp) (req : BaseBrowserRequest) (md : Metadata)
    (rng : Nat → Nat) (home : String) :
    (md.workspace = none →
      execute dom req md rng home =
        (.error (.composioSDKError "Workspace not found in authorisation data"), [])) ∧
    (∀ ws, md.workspace = some ws → ws.browser_managers = [] →
      execute dom req md rng home =
        (.error (.composioSDKError "No browser managers available"), [])) := by
  constructor
  · intro h
    exact execute_workspace_none dom req md rng home h
  · intro ws hws hbms
    refine execute_resolve_error dom req md ws rng home _ hws ?_
    cases hid : req.browser_manager_id <;>
      simp [resolveBrowserManager, lookupBrowserManager, hbms, hid, List.lookup]

/-- Witness for C6: both fatal hypotheses hold at concrete inputs. -/
theorem c6_fatal_errors_propagate_witness :
    execute demoDom demoReq mdNone demoRng "/h" =
      (.error (.composioSDKError "Workspace not found in authorisation data"), []) ∧
    execute demoDom demoReq mdEmpty demoRng "/h" =
      (.error (.composioSDKError "No browser managers available"), []) :=
  ⟨(c6_fatal_errors_propagate demoDom demoReq mdNone demoRng "/h").1 rfl,
   (c6_fatal_errors_propagate demoDom demoReq mdEmpty demoRng "/h").2 ⟨[]⟩ rfl rfl⟩

/-- C5: any exception raised inside the try block, after session resolution
succeeded, is converted into a returned response: its error is the
describing string, its current_url is re-queried from the session state at
the failure, and every telemetry and screenshot field is unset. -/
theorem c5_recovered_error_response (dom : DomainOp) (req : BaseBrowserRequest)
    (md : Metadata) (ws : Workspace) (bm : Manager) (rng : Nat → Nat) (home : String)
    (e : Exn) (bmE : Manager) (tr : List Event) (url : String)
    (hws : md.workspace = some ws)
    (hres : resolveBrowserManager ws.browser_managers req.browser_manager_id = .ok bm)
    (hbody : tryBody dom req bm rng home = .error (e, bmE, tr))
    (hurl : bmE.getCurrentUrlR = .ok url) :
    execute dom req md rng home =
      (.ok {
        error := some (errorMessage e)
        current_url := some url
        viewport := none
        scroll_position := none
        page_dimensions := none
        before_screenshot := none
        after_screenshot := none }, tr ++ [Event.getUrl]) := by
  rw [execute_resolved dom req md ws bm rng home hws hres,
    executeTry_error dom req bm rng home e bmE tr hbody,
    exceptHandler_url_ok e bmE tr url hurl]

/-- Witness for C5: a concrete domain operation that raises on a healthy
session yields exactly the recovered error response. -/
theorem c5_recovered_error_response_witness :
    execute failDom demoReq demoMd demoRng "/h" =
      (.ok {
        error := some (errorMessage (.other "boom"))
        current_url := some "http://a.example"
        viewport := none
        scroll_position := none
        page_dimensions := none
        before_screenshot := none
        after_screenshot := none }, [Event.domainOp, Event.getUrl]) :=
  c5_recovered_error_response failDom demoReq demoMd ⟨[("m", mgrA)]⟩ mgrA demoRng "/h"
    (.other "boom") mgrA [Event.domainOp] "http://a.example" rfl rfl rfl rfl

/-- C7: when a recoverable failure occurred and the best-effort current-URL
query on the session state at the failure also raises, execute raises that
second exception instead of returning an error response. -/
theorem c7_unusable_session_propagates (dom : DomainOp) (req : BaseBrowserRequest)
    (md : Metadata) (ws : Workspace) (bm : Manager) (rng : Nat → Nat) (home : String)
    (e : Exn) (bmE : Manager) (tr : List Event) (e2 : Exn)
    (hws : md.workspace = some ws)
    (hres : resolveBrowserManager ws.browser_managers req.browser_manager_id = .ok bm)
    (hbody : tryBody dom req bm rng home = .error (e, bmE, tr))
    (hurl : bmE.getCurrentUrlR = .error e2) :
    execute dom req md rng home = (.error e2, tr ++ [Event.getUrl]) := by
  rw [execute_resolved dom req md ws bm rng home hws hres,
    executeTry_error dom req bm rng home e bmE tr hbody,
    exceptHandler_url_error e bmE tr e2 hurl]

/-- Witness for C7: a raising domain operation on a session whose URL query
raises makes execute propagate the second exception. -/
theorem c7_unusable_session_propagates_witness :
    execute failDom demoReq mdDead demoRng "/h" =
      (.error (.other "dead"), [Event.domainOp, Event.getUrl]) :=
  c7_unusable_session_propagates failDom demoReq mdDead ⟨[("m", mgrDead)]⟩ mgrDead
    demoRng "/h" (.other "boom") mgrDead [Event.domainOp] (.other "dead") rfl rfl rfl rfl

/-- C3: a request naming an identifier that is not a registry key raises the
no-managers error when the registry is empty, and otherwise falls through to
the default selection, acting on the first inserted session, whose key
differs from the requested identifier. -/
theorem c3_unknown_id_fallback (dom : DomainOp) (req : BaseBrowserRequest) (md : Metadata)
    (ws : Workspace) (rng : Nat → Nat) (home : String) (key : String)
    (hws : md.workspace = some ws)
    (hid : req.browser_manager_id = some key)
    (hmiss : lookupBrowserManager ws.browser_managers (some key) = none) :
    (ws.browser_managers = [] →
      execute dom req md rng home =
        (.error (.composioSDKError "No browser managers available"), [])) ∧
    (∀ k0 m0 rest, ws.browser_managers = (k0, m0) :: rest →
      k0 ≠ key ∧ execute dom req md rng home = executeTry dom req m0 rng home) := by
  have hmiss2 : List.lookup key ws.browser_managers = none := hmiss
  constructor
  · intro hbms
    refine execute_resolve_error dom req md ws rng home _ hws ?_
    simp [resolveBrowserManager, lookupBrowserManager, hid, hbms, List.lookup]
  · intro k0 m0 rest hbms
    rw [hbms] at hmiss2
    have hkey : ¬(key = k0) := by
      intro hk
      simp [List.lookup, hk] at hmiss2
    constructor
    · exact fun h => hkey h.symm
    · refine execute_resolved dom req md ws m0 rng home hws ?_
      rw [hid, hbms]
      simp [resolveBrowserManager, lookupBrowserManager, hmiss2]

/-- Witness for C3: identifier zzz is absent from a one-entry registry, the
fallback acts on the first entry whose key m is not zzz. -/
theorem c3_unknown_id_fallback_witness :
    "m" ≠ "zzz" ∧
    execute demoDom reqZ demoMd demoRng "/h" = executeTry demoDom reqZ mgrA demoRng "/h" :=
  (c3_unknown_id_fallback demoDom reqZ demoMd ⟨[("m", mgrA)]⟩ demoRng "/h" "zzz"
    rfl rfl rfl).2 "m" mgrA [] rfl

/-! Characterization of the try-block outcomes. -/

theorem dispatchAndEnrich_ok_cases (dom : DomainOp) (req : BaseBrowserRequest) (bm : Manager)
    (rng : Nat → Nat) (home : String) (before : Option String) (tr0 : List Event)
    (resp : BaseBrowserResponse) (tr : List Event)
    (h : dispatchAndEnrich dom req bm rng home before tr0 = .ok (resp, tr)) :
    ∃ r bm' url vp sc pd,
      dom bm = .ok (r, bm') ∧
      bm'.getCurrentUrlR = .ok url ∧
      bm'.getPageViewportR = .ok vp ∧
      bm'.executeScriptR scrollPositionScript = .ok sc ∧
      bm'.executeScriptR pageDimensionsScript = .ok pd ∧
      ((req.capture_screenshot = true ∧
        resp = finishResp r url vp sc pd before (some (screenshotPath home "after" rng 6)) ∧
        tr = tr0 ++ [Event.domainOp, Event.getUrl, Event.getViewport,
          Event.script scrollPositionScript, Event.script pageDimensionsScript,
          Event.screenshot "after" (screenshotPath home "after" rng 6)]) ∨
       (req.capture_screenshot = false ∧
        resp = finishResp r url vp sc pd before none ∧
        tr = tr0 ++ [Event.domainOp, Event.getUrl, Event.getViewport,
          Event.script scrollPositionScript, Event.script pageDimensionsScript])) := by
  unfold dispatchAndEnrich at h
  split at h
  next e bmE heq => exact Except.noConfusion h
  next r bm' heq =>
    split at h
    next e heq2 => exact Except.noConfusion h
    next url heq2 =>
      split at h
      next e heq3 => exact Except.noConfusion h
      next vp heq3 =>
        split at h
        next e heq4 => exact Except.noConfusion h
        next sc heq4 =>
          split at h
          next e heq5 => exact Except.noConfusion h
          next pd heq5 =>
            split at h
            next hcap =>
              split at h
              next e heq6 => exact Except.noConfusion h
              next u heq6 =>
                injection h with h1
                injection h1 with h2 h3
                exact ⟨r, bm', url, vp, sc, pd, heq, heq2, heq3, heq4, heq5,
                  Or.inl ⟨hcap, h2.symm, h3.symm⟩⟩
            next hcap =>
              injection h with h1
              injection h1 with h2 h3
              exact ⟨r, bm', url, vp, sc, pd, heq, heq2, heq3, heq4, heq5,
                Or.inr ⟨by simpa using hcap, h2.symm, h3.symm⟩⟩

theorem tryBody_ok_cases (dom : DomainOp) (req : BaseBrowserRequest) (bm : Manager)
    (rng : Nat → Nat) (home : String) (resp : BaseBrowserResponse) (tr : List Event)
    (h : tryBody dom req bm rng home = .ok (resp, tr)) :
    (req.capture_screenshot = true ∧
      bm.takeScreenshotR (screenshotPath home "before" rng 0) = .ok () ∧
      dispatchAndEnrich dom req bm rng home (some (screenshotPath home "before" rng 0))
        [Event.screenshot "before" (screenshotPath home "before" rng 0)] = .ok (resp, tr)) ∨
    (req.capture_screenshot = false ∧
      dispatchAndEnrich dom req bm rng home none [] = .ok (resp, tr)) := by
  unfold tryBody at h
  split at h
  next hcap =>
    split at h
    next e heq => exact Except.noConfusion h
    next u heq => exact Or.inl ⟨hcap, by cases u; exact heq, h⟩
  next hcap => exact Or.inr ⟨by simpa using hcap, h⟩

theorem dispatchAndEnrich_error_trace (dom : DomainOp) (req : BaseBrowserRequest)
    (bm : Manager) (rng : Nat → Nat) (home : String) (before : Option String)
    (tr0 : List Event) (e : Exn) (bmE : Manager) (tr : List Event)
    (h : dispatchAndEnrich dom req bm rng home before tr0 = .error (e, bmE, tr)) :
    ∀ p s, Event.screenshot p s ∈ tr →
      Event.screenshot p s ∈ tr0 ∨ req.capture_screenshot = true := by
  unfold dispatchAndEnrich at h
  split at h
  next e2 bmE2 heq =>
    injection h with h1
    injection h1 with ha h2
    injection h2 with hb hc
    intro p s hm
    rw [← hc] at hm
    rcases List.mem_append.1 hm with hm0 | hm0
    · exact Or.inl hm0
    · simp at hm0
  next r bm' heq =>
    split at h
    next e2 heq2 =>
      injection h with h1
      injection h1 with ha h2
      injection h2 with hb hc
      intro p s hm
      rw [← hc] at hm
      rcases List.mem_append.1 hm with hm0 | hm0
      · exact Or.inl hm0
      · simp at hm0
    next url heq2 =>
      split at h
      next e2 heq3 =>
        injection h with h1
        injection h1 with ha h2
        injection h2 with hb hc
        intro p s hm
        rw [← hc] at hm
        rcases List.mem_append.1 hm with hm0 | hm0
        · exact Or.inl hm0
        · simp at hm0
      next vp heq3 =>
        split at h
        next e2 heq4 =>
          injection h with h1
          injection h1 with ha h2
          injection h2 with hb hc
          intro p s hm
          rw [← hc] at hm
          rcases List.mem_append.1 hm with hm0 | hm0
          · exact Or.inl hm0
          · simp at hm0
        next sc heq4 =>
          split at h
          next e2 heq5 =>
            injection h with h1
            injection h1 with ha h2
            injection h2 with hb hc
            intro p s hm
            rw [← hc] at hm
            rcases List.mem_append.1 hm with hm0 | hm0
            · exact Or.inl hm0
            · simp at hm0
          next pd heq5 =>
            split at h
            next hcap => exact fun p s hm => Or.inr hcap
            next hcap => exact Except.noConfusion h

theorem tryBody_error_trace (dom : DomainOp) (req : BaseBrowserRequest) (bm : Manager)
    (rng : Nat → Nat) (home : String) (e : Exn) (bmE : Manager) (tr : List Event)
    (h : tryBody dom req bm rng home = .error (e, bmE, tr)) :
    ∀ p s, Event.screenshot p s ∈ tr → req.capture_screenshot = true := by
  unfold tryBody at h
  split at h
  next hcap => exact fun p s hm => hcap
  next hcap =>
    intro p s hm
    rcases dispatchAndEnrich_error_trace dom req bm rng home none [] e bmE tr h p s hm
      with hm0 | hc
    · simp at hm0
    · exact hc

/-- C9: with capture_screenshot false, any response execute returns, the
recovered-error one included, carries no screenshot paths, and no screenshot
call is ever made on the session (no screenshot event in the trace). -/
theorem c9_no_screenshots_when_disabled (dom : DomainOp) (req : BaseBrowserRequest)
    (md : Metadata) (ws : Workspace) (bm : Manager) (rng : Nat → Nat) (home : String)
    (hws : md.workspace = some ws)
    (hres : resolveBrowserManager ws.browser_managers req.browser_manager_id = .ok bm)
    (hcap : req.capture_screenshot = false) :
    (∀ resp, (execute dom req md rng home).1 = .ok resp →
      resp.before_screenshot = none ∧ resp.after_screenshot = none) ∧
    (∀ p s, Event.screenshot p s ∉ (execute dom req md rng home).2) := by
  rw [execute_resolved dom req md ws bm rng home hws hres]
  rcases htb : tryBody dom req bm rng home with ⟨e, bmE, trE⟩ | ⟨resp0, tr0⟩
  · rw [executeTry_error dom req bm rng home e bmE trE htb]
    have hnoshot : ∀ p s, Event.screenshot p s ∉ trE := by
      intro p s hm
      have hc := tryBody_error_trace dom req bm rng home e bmE trE htb p s hm
      rw [hcap] at hc
      exact Bool.noConfusion hc
    rcases hu : bmE.getCurrentUrlR with e2 | url
    · rw [exceptHandler_url_error e bmE trE e2 hu]
      constructor
      · intro resp hr
        exact Except.noConfusion hr
      · intro p s hm
        rcases List.mem_append.1 hm with hm0 | hm0
        · exact hnoshot p s hm0
        · simp at hm0
    · rw [exceptHandler_url_ok e bmE trE url hu]
      constructor
      · intro resp hr
        injection hr with hr2
        rw [← hr2]
        exact ⟨rfl, rfl⟩
      · intro p s hm
        rcases List.mem_append.1 hm with hm0 | hm0
        · exact hnoshot p s hm0
        · simp at hm0
  · rw [executeTry_ok dom req bm rng home resp0 tr0 htb]
    rcases tryBody_ok_cases dom req bm rng home resp0 tr0 htb with ⟨hc, _, _⟩ | ⟨_, hde⟩
    · rw [hcap] at hc
      exact Bool.noConfusion hc
    · rcases dispatchAndEnrich_ok_cases dom req bm rng home none [] resp0 tr0 hde with
        ⟨r, bm', url, vp, sc, pd, _, _, _, _, _, ⟨hc, _, _⟩ | ⟨_, hresp, htr⟩⟩
      · rw [hcap] at hc
        exact Bool.noConfusion hc
      · constructor
        · intro resp hr
          injection hr with hr2
          rw [← hr2, hresp]
          exact ⟨rfl, rfl⟩
        · intro p s hm
          rw [htr] at hm
          simp at hm

/-- The response of the successful capture-off demo run. -/
def demoResp : BaseBrowserResponse where
  error := none
  current_url := some "http://a.example"
  viewport := some [("width", some 800), ("height", some 600)]
  scroll_position := some [("x", some 1), ("y", some 2)]
  page_dimensions := some [("x", some 1), ("y", some 2)]
  before_screenshot := none
  after_screenshot := none

/-- Witness for C9: the concrete capture-off run returns a response with
both screenshot fields unset. -/
theorem c9_no_screenshots_when_disabled_witness :
    demoResp.before_screenshot = none ∧ demoResp.after_screenshot = none :=
  (c9_no_screenshots_when_disabled demoDom demoReq demoMd ⟨[("m", mgrA)]⟩ mgrA demoRng "/h"
    rfl rfl rfl).1 demoResp rfl

/-! C4: the response invariant. -/

/-- The success shape: the telemetry of the returned response is exactly
what the queries on the post-domain-operation session state returned,
normalized by the dict rules. -/
def successReflects (dom : DomainOp) (req : BaseBrowserRequest) (md : Metadata)
    (resp : BaseBrowserResponse) : Prop :=
  ∃ ws bm r bm' url vp sc pd,
    md.workspace = some ws ∧
    resolveBrowserManager ws.browser_managers req.browser_manager_id = Except.ok bm ∧
    dom bm = Except.ok (r, bm') ∧
    bm'.getCurrentUrlR = Except.ok url ∧
    bm'.getPageViewportR = Except.ok vp ∧
    bm'.executeScriptR scrollPositionScript = Except.ok sc ∧
    bm'.executeScriptR pageDimensionsScript = Except.ok pd ∧
    resp.current_url = some url ∧
    resp.viewport = dictOrNone vp ∧
    resp.scroll_position = dictOrNone sc ∧
    resp.page_dimensions = dictOrNone pd

/-- The failure shape: a populated error and no telemetry nor screenshots. -/
def errorShape (resp : BaseBrowserResponse) : Prop :=
  ∃ msg, resp.error = some msg ∧ resp.viewport = none ∧ resp.scroll_position = none ∧
    resp.page_dimensions = none ∧ resp.before_screenshot = none ∧
    resp.after_screenshot = none

/-- C4: every response execute returns (given that concrete actions leave
the shared error field empty, as the spec states for domain operations)
either has no error and telemetry reflecting the session state after the
domain operation, or has a populated error and every telemetry and
screenshot field unset. -/
theorem c4_error_xor_telemetry (dom : DomainOp) (req : BaseBrowserRequest) (md : Metadata)
    (rng : Nat → Nat) (home : String)
    (hdom : ∀ bm r bm', dom bm = Except.ok (r, bm') → r.error = none)
    (resp : BaseBrowserResponse)
    (hresp : (execute dom req md rng home).1 = Except.ok resp) :
    (resp.error = none ∧ successReflects dom req md resp) ∨ errorShape resp := by
  rcases hws : md.workspace with _ | ws
  · rw [execute_workspace_none dom req md rng home hws] at hresp
    exact Except.noConfusion hresp
  · rcases hres : resolveBrowserManager ws.browser_managers req.browser_manager_id
      with e | bm
    · rw [execute_resolve_error dom req md ws rng home e hws hres] at hresp
      exact Except.noConfusion hresp
    · rw [execute_resolved dom req md ws bm rng home hws hres] at hresp
      rcases htb : tryBody dom req bm rng home with ⟨e, bmE, trE⟩ | ⟨resp0, tr0⟩
      · rw [executeTry_error dom req bm rng home e bmE trE htb] at hresp
        rcases hu : bmE.getCurrentUrlR with e2 | url
        · rw [exceptHandler_url_error e bmE trE e2 hu] at hresp
          exact Except.noConfusion hresp
        · rw [exceptHandler_url_ok e bmE trE url hu] at hresp
          injection hresp with h2
          right
          refine ⟨errorMessage e, ?_⟩
          rw [← h2]
          exact ⟨rfl, rfl, rfl, rfl, rfl, rfl⟩
      · rw [executeTry_ok dom req bm rng home resp0 tr0 htb] at hresp
        injection hresp with h2
        subst h2
        left
        rcases tryBody_ok_cases dom req bm rng home resp0 tr0 htb with
          ⟨_, _, hde⟩ | ⟨_, hde⟩ <;>
        · rcases dispatchAndEnrich_ok_cases dom req bm rng home _ _ resp0 tr0 hde with
            ⟨r, bm', url, vp, sc, pd, hd, hu, hv, hs, hp,
              ⟨_, hresp0, _⟩ | ⟨_, hresp0, _⟩⟩ <;>
          · subst hresp0
            refine ⟨hdom bm r bm' hd, ws, bm, r, bm', url, vp, sc, pd,
              hws, hres, hd, hu, hv, hs, hp, rfl, rfl, rfl, rfl⟩

/-- Witness for C4: the invariant at a concrete successful run. -/
theorem c4_error_xor_telemetry_witness :
    (demoResp.error = none ∧ successReflects demoDom demoReq demoMd demoResp) ∨
      errorShape demoResp :=
  c4_error_xor_telemetry demoDom demoReq demoMd demoRng "/h"
    (fun bm r bm' h => by
      have h' : Except.ok (({} : BaseBrowserResponse), bm) = Except.ok (r, bm') := h
      injection h' with h1
      injection h1 with ha hb
      rw [← ha])
    demoResp rfl

/-! C1: entry-wise normalization of the telemetry dicts. -/

theorem lookup_normalizeEntries (d : JDict) (k : String) (v : Option Int)
    (h : List.lookup k d = some v) :
    List.lookup k (normalizeEntries d) = some (truthyOrNone v) := by
  induction d with
  | nil => simp [List.lookup] at h
  | cons kv rest ih =>
    obtain ⟨k1, v1⟩ := kv
    cases hb : (k == k1) with
    | false =>
      simp only [List.lookup, hb] at h
      simp only [normalizeEntries, List.map, List.lookup, hb]
      exact ih h
    | true =>
      simp only [List.lookup, hb] at h
      injection h with hv
      simp only [normalizeEntries, List.map, List.lookup, hb]
      rw [hv]

theorem tryBody_ok_dispatch (dom : DomainOp) (req : BaseBrowserRequest) (bm : Manager)
    (rng : Nat → Nat) (home : String) (resp : BaseBrowserResponse) (tr : List Event)
    (h : tryBody dom req bm rng home = .ok (resp, tr)) :
    ∃ before tr0, dispatchAndEnrich dom req bm rng home before tr0 = .ok (resp, tr) := by
  rcases tryBody_ok_cases dom req bm rng home resp tr h with ⟨_, _, hde⟩ | ⟨_, hde⟩
  · exact ⟨_, _, hde⟩
  · exact ⟨_, _, hde⟩

/-- C1 (amended): on a successful run the three telemetry fields are the
query results passed through the Python truthiness normalization: a non-null
nonzero entry is preserved, a null entry stays unknown (never defaulted to
zero), and a zero entry is coerced to unknown; a null or empty dict yields
an unknown field. -/
theorem c1_amended_truthiness (dom : DomainOp) (req : BaseBrowserRequest) (bm : Manager)
    (rng : Nat → Nat) (home : String) (resp : BaseBrowserResponse) (tr : List Event)
    (hbody : tryBody dom req bm rng home = .ok (resp, tr)) :
    ∃ r bm' vp sc pd,
      dom bm = .ok (r, bm') ∧
      bm'.getPageViewportR = .ok vp ∧
      bm'.executeScriptR scrollPositionScript = .ok sc ∧
      bm'.executeScriptR pageDimensionsScript = .ok pd ∧
      resp.viewport = dictOrNone vp ∧
      resp.scroll_position = dictOrNone sc ∧
      resp.page_dimensions = dictOrNone pd ∧
      (∀ (d : JDict) (k : String) (v : Option Int), List.lookup k d = some v →
        List.lookup k (normalizeEntries d) = some (truthyOrNone v)) ∧
      (∀ n : Int, n ≠ 0 → truthyOrNone (some n) = some n) ∧
      truthyOrNone (some 0) = none ∧
      truthyOrNone none = none ∧
      (∀ d : JDict, d ≠ [] → dictOrNone (some d) = some (normalizeEntries d)) ∧
      dictOrNone none = none := by
  obtain ⟨before, tr0, hde⟩ := tryBody_ok_dispatch dom req bm rng home resp tr hbody
  rcases dispatchAndEnrich_ok_cases dom req bm rng home before tr0 resp tr hde with
    ⟨r, bm', url, vp, sc, pd, hd, hu, hv, hs, hp, ⟨_, hresp, _⟩ | ⟨_, hresp, _⟩⟩ <;>
  · subst hresp
    exact ⟨r, bm', vp, sc, pd, hd, hv, hs, hp, rfl, rfl, rfl,
      fun d k v hkv => lookup_normalizeEntries d k v hkv,
      fun n hn => by simp [truthyOrNone, hn],
      rfl, rfl,
      fun d hd0 => by simp [dictOrNone, hd0],
      rfl⟩

/-- A session whose viewport query returns a legitimate zero (width 0) and
whose script queries return a zero x offset. -/
def c1Mgr : Manager where
  getCurrentUrlR := .ok "http://z.example"
  getPageViewportR := .ok (some [("width", some 0), ("height", some 600)])
  executeScriptR := fun _ => .ok (some [("x", some 0), ("y", some 10)])
  takeScreenshotR := fun _ => .ok ()

def c1Md : Metadata := ⟨some ⟨[("m", c1Mgr)]⟩⟩

/-- The response the code actually produces on c1Mgr. -/
def c1Resp : BaseBrowserResponse where
  error := none
  current_url := some "http://z.example"
  viewport := some [("width", none), ("height", some 600)]
  scroll_position := some [("x", none), ("y", some 10)]
  page_dimensions := some [("x", none), ("y", some 10)]
  before_screenshot := none
  after_screenshot := none

/-- Counterexample to C1 as stated: the viewport query returns the non-null
value 0 for width, yet the successful response records the width entry as
unknown (None) — a returned 0 is NOT preserved. -/
theorem c1_zero_coerced_counterexample :
    c1Mgr.getPageViewportR = .ok (some [("width", some 0), ("height", some 600)]) ∧
    (execute demoDom demoReq c1Md demoRng "/h").1 = .ok c1Resp ∧
    c1Resp.error = none ∧
    c1Resp.viewport = some [("width", none), ("height", some 600)] ∧
    some [("width", (none : Option Int)), ("height", some 600)] ≠
      some [("width", some 0), ("height", some 600)] :=
  ⟨rfl, rfl, rfl, rfl, by decide⟩

/-- Witness for C1 (amended): the hypotheses hold at the concrete zero-value
run. -/
theorem c1_amended_truthiness_witness :
    c1Resp.viewport = dictOrNone (some [("width", some 0), ("height", some 600)]) := by
  rcases c1_amended_truthiness demoDom demoReq c1Mgr demoRng "/h" c1Resp
      [Event.domainOp, Event.getUrl, Event.getViewport, Event.script scrollPositionScript,
        Event.script pageDimensionsScript] rfl with
    ⟨r, bm', vp, sc, pd, hd, hv, hs, hp, hvp, hsc, hpd, hrest⟩
  have hbm : bm' = c1Mgr := by
    have h' : Except.ok (({} : BaseBrowserResponse), c1Mgr) = Except.ok (r, bm') := hd
    injection h' with h1
    injection h1 with ha hb
    exact hb.symm
  rw [hbm] at hv
  have hvp2 : vp = some [("width", some 0), ("height", some 600)] := by
    have h2 : Except.ok (some [("width", (some 0 : Option Int)), ("height", some 600)]) =
        Except.ok vp := hv
    injection h2 with h3
    exact h3.symm
  rw [← hvp2]
  exact hvp

/-! C8 and C10: screenshot path facts. -/

theorem randomString_length (rng : Nat → Nat) (start : Nat) :
    (randomString rng start).length = 6 := by
  show ((List.range 6).map fun i => lowercaseAt (rng (start + i))).length = 6
  simp

theorem screenshotPath_length (home pfx : String) (rng : Nat → Nat) (start : Nat) :
    (screenshotPath home pfx rng start).length =
      home.length + 16 + pfx.length + 12 + 6 + 4 := by
  have h1 : ("/.browser_media/" : String).length = 16 := rfl
  have h2 : ("_screenshot_" : String).length = 12 := rfl
  have h3 : (".png" : String).length = 4 := rfl
  simp [screenshotPath, String.length_append, randomString_length, h1, h2, h3]

theorem beforePath_ne_afterPath (home : String) (rng1 : Nat → Nat) (i1 : Nat)
    (rng2 : Nat → Nat) (i2 : Nat) :
    screenshotPath home "before" rng1 i1 ≠ screenshotPath home "after" rng2 i2 := by
  intro h
  have hl := congrArg String.length h
  rw [screenshotPath_length, screenshotPath_length] at hl
  have hb : ("before" : String).length = 6 := rfl
  have ha : ("after" : String).length = 5 := rfl
  rw [hb, ha] at hl
  omega

/-- C8: on a successful run with capture_screenshot true, the response holds
the two screenshot paths, they differ, both end in .png, and in the call
trace the before screenshot precedes the domain operation while the after
screenshot follows the whole telemetry enrichment. -/
theorem c8_screenshots_on_success (dom : DomainOp) (req : BaseBrowserRequest)
    (md : Metadata) (ws : Workspace) (bm : Manager) (rng : Nat → Nat) (home : String)
    (resp : BaseBrowserResponse) (tr : List Event)
    (hws : md.workspace = some ws)
    (hres : resolveBrowserManager ws.browser_managers req.browser_manager_id = .ok bm)
    (hcap : req.capture_screenshot = true)
    (hbody : tryBody dom req bm rng home = .ok (resp, tr)) :
    execute dom req md rng home = (.ok resp, tr) ∧
    resp.before_screenshot = some (screenshotPath home "before" rng 0) ∧
    resp.after_screenshot = some (screenshotPath home "after" rng 6) ∧
    screenshotPath home "before" rng 0 ≠ screenshotPath home "after" rng 6 ∧
    (∃ stem, screenshotPath home "before" rng 0 = stem ++ ".png") ∧
    (∃ stem, screenshotPath home "after" rng 6 = stem ++ ".png") ∧
    tr = [Event.screenshot "before" (screenshotPath home "before" rng 0), Event.domainOp,
      Event.getUrl, Event.getViewport, Event.script scrollPositionScript,
      Event.script pageDimensionsScript,
      Event.screenshot "after" (screenshotPath home "after" rng 6)] ∧
    (∃ l, tr = Event.screenshot "before" (screenshotPath home "before" rng 0) ::
      Event.domainOp :: l) ∧
    (∃ l, tr = l ++ [Event.script pageDimensionsScript,
      Event.screenshot "after" (screenshotPath home "after" rng 6)]) := by
  rcases tryBody_ok_cases dom req bm rng home resp tr hbody with
    ⟨_, hshot, hde⟩ | ⟨hc, _⟩
  · rcases dispatchAndEnrich_ok_cases dom req bm rng home _ _ resp tr hde with
      ⟨r, bm', url, vp, sc, pd, hd, hu, hv, hs, hp, ⟨_, hresp, htr⟩ | ⟨hc, _, _⟩⟩
    · subst hresp
      subst htr
      refine ⟨?_, rfl, rfl, beforePath_ne_afterPath home rng 0 rng 6, ⟨_, rfl⟩, ⟨_, rfl⟩,
        rfl, ⟨_, rfl⟩,
        ⟨[Event.screenshot "before" (screenshotPath home "before" rng 0), Event.domainOp,
          Event.getUrl, Event.getViewport, Event.script scrollPositionScript], rfl⟩⟩
      rw [execute_resolved dom req md ws bm rng home hws hres,
        executeTry_ok dom req bm rng home _ _ hbody]
    · rw [hcap] at hc
      exact Bool.noConfusion hc
  · rw [hcap] at hc
    exact Bool.noConfusion hc

def reqShot : BaseBrowserRequest := { capture_screenshot := true }

/-- The response of the successful capture-on demo run. -/
def c8Resp : BaseBrowserResponse where
  error := none
  current_url := some "http://a.example"
  viewport := some [("width", some 800), ("height", some 600)]
  scroll_position := some [("x", some 1), ("y", some 2)]
  page_dimensions := some [("x", some 1), ("y", some 2)]
  before_screenshot := some "/h/.browser_media/before_screenshot_abcdef.png"
  after_screenshot := some "/h/.browser_media/after_screenshot_ghijkl.png"

/-- The call trace of the successful capture-on demo run. -/
def c8Tr : List Event :=
  [Event.screenshot "before" "/h/.browser_media/before_screenshot_abcdef.png",
    Event.domainOp, Event.getUrl, Event.getViewport, Event.script scrollPositionScript,
    Event.script pageDimensionsScript,
    Event.screenshot "after" "/h/.browser_media/after_screenshot_ghijkl.png"]

/-- Witness for C8 at a concrete capture-on run. -/
theorem c8_screenshots_on_success_witness :
    c8Resp.before_screenshot = some (screenshotPath "/h" "before" demoRng 0) ∧
    c8Resp.after_screenshot = some (screenshotPath "/h" "after" demoRng 6) ∧
    screenshotPath "/h" "before" demoRng 0 ≠ screenshotPath "/h" "after" demoRng 6 := by
  have h := c8_screenshots_on_success demoDom reqShot demoMd ⟨[("m", mgrA)]⟩ mgrA demoRng
    "/h" c8Resp c8Tr rfl rfl rfl rfl
  exact ⟨h.2.1, h.2.2.1, h.2.2.2.1⟩

theorem lowercase_getD_bounds :
    ∀ j, j < 26 → ('a' ≤ asciiLowercase.getD j 'a' ∧ asciiLowercase.getD j 'a' ≤ 'z') := by
  decide

theorem lowercaseAt_bounds (n : Nat) : 'a' ≤ lowercaseAt n ∧ lowercaseAt n ≤ 'z' :=
  lowercase_getD_bounds (n % 26) (Nat.mod_lt n (by decide))

/-- C10: every screenshot path is home/.browser_media/ followed by the
prefix, the literal _screenshot_, a suffix of exactly six lowercase ASCII
letters and .png; and a before path never equals an after path, whatever the
random suffixes. -/
theorem c10_screenshot_path_shape (home pfx : String) (rng : Nat → Nat) (start : Nat) :
    (∃ s, screenshotPath home pfx rng start =
        home ++ "/.browser_media/" ++ pfx ++ "_screenshot_" ++ s ++ ".png" ∧
      s.length = 6 ∧ ∀ c ∈ s.data, 'a' ≤ c ∧ c ≤ 'z') ∧
    (∀ rng2 start2, screenshotPath home "before" rng start ≠
      screenshotPath home "after" rng2 start2) := by
  constructor
  · refine ⟨randomString rng start, rfl, randomString_length rng start, ?_⟩
    intro c hc
    have hc' : c ∈ (List.range 6).map fun i => lowercaseAt (rng (start + i)) := hc
    rcases List.mem_map.1 hc' with ⟨i, hi, hci⟩
    rw [← hci]
    exact lowercaseAt_bounds (rng (start + i))
  · exact fun rng2 start2 => beforePath_ne_afterPath home rng start rng2 start2
